import Mathlib

/-!
Verification of the PdM-Manager configuration headers.

The repository consists of two variants of `credentials.h` for an ESP32
firmware, each declaring a flat list of constants: WiFi SSID and password,
server base URL, sensor identifier, sample interval and connection timeout.
This file embeds both variants and the configuration contract described in
the design document (the `DeviceConfig` record, its `load` operation with
`ConfigurationError`, URI well-formedness, serialization round-trip and the
read-only operation model).
-/

namespace PdM

/-- The `DeviceConfig` record: the named constants of one `credentials.h`
variant.  The identifier type is a parameter because the two source variants
declare `sensorId` with different C types (`const int` vs `const char*`). -/
structure DeviceConfig (ι : Type) where
  networkName : String
  networkSecret : String
  serverBaseUrl : String
  sensorIdentifier : ι
  sampleIntervalMs : Nat
  connectionTimeoutMs : Nat
deriving DecidableEq, Repr

/-- The C type used in a constant declaration, as written in the headers. -/
inductive CType where
  | cInt
  | cCharPtr
  | cUnsignedLong
deriving DecidableEq, Repr

namespace Variant1

/-- `const char* ssid = "A55";` (src/Arduino/ESP32_Sensor/credentials.h). -/
def ssid : String := "A55"

/-- `const char* password = "mukava123";` -/
def password : String := "mukava123"

/-- `const char* serverBaseUrl = "http://192.168.1.11:8000";` -/
def serverBaseUrl : String := "http://192.168.1.11:8000"

/-- `const int sensorId = 1;` -/
def sensorId : Int := 1

/-- Declared C type of `sensorId` in this variant: `const int`. -/
def sensorIdDeclaredType : CType := CType.cInt

/-- `const unsigned long sampleInterval = 10000;` -/
def sampleInterval : Nat := 10000

/-- `const unsigned long connectionTimeout = 15000;` -/
def connectionTimeout : Nat := 15000

/-- The configuration record assembled from the constants of variant 1. -/
def config : DeviceConfig Int :=
  { networkName := ssid
    networkSecret := password
    serverBaseUrl := serverBaseUrl
    sensorIdentifier := sensorId
    sampleIntervalMs := sampleInterval
    connectionTimeoutMs := connectionTimeout }

/-- The `sensorId` value of variant 1, injected into the common sum type so
that the two variants' identifier values can be compared at all. -/
def sensorIdValue : Int ⊕ String := Sum.inl sensorId

end Variant1

namespace Variant2

/-- `const char* ssid = "servo";` (src/Sensor/Arduino/ESP32_Sensor/credentials.h). -/
def ssid : String := "servo"

/-- `const char* password = "servoapi24";` -/
def password : String := "servoapi24"

/-- `const char* serverBaseUrl = "http://127.0.0.1:8000";` -/
def serverBaseUrl : String := "http://127.0.0.1:8000"

/-- `const char* sensorId = "ESP32_001";` -/
def sensorId : String := "ESP32_001"

/-- Declared C type of `sensorId` in this variant: `const char*`. -/
def sensorIdDeclaredType : CType := CType.cCharPtr

/-- `const unsigned long sampleInterval = 5000;` -/
def sampleInterval : Nat := 5000

/-- `const unsigned long connectionTimeout = 10000;` -/
def connectionTimeout : Nat := 10000

/-- The configuration record assembled from the constants of variant 2. -/
def config : DeviceConfig String :=
  { networkName := ssid
    networkSecret := password
    serverBaseUrl := serverBaseUrl
    sensorIdentifier := sensorId
    sampleIntervalMs := sampleInterval
    connectionTimeoutMs := connectionTimeout }

/-- The `sensorId` value of variant 2, injected into the common sum type. -/
def sensorIdValue : Int ⊕ String := Sum.inr sensorId

end Variant2

/-- Modelled from the spec: the single error kind `ConfigurationError`
(spec §7), refined by which invariant of spec §3/§8 was violated.  The
source contains no error-handling code; only the constants are in `src/`. -/
inductive ConfigurationError where
  | missingIdentifier
  | emptyNetworkName
  | emptyNetworkSecret
  | malformedUrl
  | nonPositiveInterval
  | nonPositiveTimeout
deriving DecidableEq, Repr

/-- Split a character list at the first occurrence of the marker `://`,
returning the part before it and the part after it. -/
def splitAtMarker : List Char → Option (List Char × List Char)
  | [] => none
  | ':' :: '/' :: '/' :: rest => some ([], rest)
  | c :: rest =>
    match splitAtMarker rest with
    | none => none
    | some (pre, post) => some (c :: pre, post)

/-- Modelled from the spec: parse a URI into its scheme and host (spec §3
requires `serverBaseUrl` to be a well-formed URI with scheme and host; no
URI code exists in the source).  The scheme is everything before the first
`://`; the host is everything after it up to the first `:` or `/`.  Both
must be non-empty. -/
def uriSchemeHost (s : String) : Option (String × String) :=
  match splitAtMarker s.data with
  | none => none
  | some (sch, rest) =>
    let host := rest.takeWhile (fun c => c != ':' && c != '/')
    if sch.isEmpty || host.isEmpty then none
    else some (String.mk sch, String.mk host)

/-- A string is a well-formed URI when it has a non-empty scheme and a
non-empty host. -/
def wellFormedUri (s : String) : Bool :=
  (uriSchemeHost s).isSome

/-- Modelled from the spec: validation of the §3 invariants performed by
`load` (spec §4.1 and §8 scenarios 2 and 3).  `present` decides whether a
sensor identifier counts as present; it abstracts over the two identifier
representations.  Returns the first violated invariant, if any. -/
def validate {ι : Type} (present : ι → Bool) (c : DeviceConfig ι) :
    Option ConfigurationError :=
  if !present c.sensorIdentifier then some ConfigurationError.missingIdentifier
  else if c.networkName.isEmpty then some ConfigurationError.emptyNetworkName
  else if c.networkSecret.isEmpty then some ConfigurationError.emptyNetworkSecret
  else if !wellFormedUri c.serverBaseUrl then some ConfigurationError.malformedUrl
  else if c.sampleIntervalMs = 0 then some ConfigurationError.nonPositiveInterval
  else if c.connectionTimeoutMs = 0 then some ConfigurationError.nonPositiveTimeout
  else none

/-- Modelled from the spec: `load() -> DeviceConfig` (spec §4.1) returns the
compiled-in configuration, or signals a `ConfigurationError` when an
invariant of §3 is violated.  The source only declares the constants. -/
def load {ι : Type} (present : ι → Bool) (c : DeviceConfig ι) :
    Except ConfigurationError (DeviceConfig ι) :=
  match validate present c with
  | some e => Except.error e
  | none => Except.ok c

/-- A numeric sensor identifier (variant 1, `const int`) is always present. -/
def numericIdPresent (_ : Int) : Bool := true

/-- A textual sensor identifier (variant 2, `const char*`) is present
exactly when it is a non-empty string (spec §8, Scenario 2). -/
def textIdPresent (s : String) : Bool := !s.isEmpty

/-- Escape a character list for inclusion in a C string literal: backslash
and double quote are escaped with a backslash, a newline becomes `\n`. -/
def escapeChars : List Char → List Char
  | [] => []
  | c :: cs =>
    if c = '\\' ∨ c = '"' then '\\' :: c :: escapeChars cs
    else if c = '\n' then '\\' :: 'n' :: escapeChars cs
    else c :: escapeChars cs

/-- Read the body of a C string literal up to the closing unescaped double
quote, undoing the escapes of `escapeChars`.  Returns the decoded value and
the remainder after the closing quote. -/
def readQuoted : List Char → Option (List Char × List Char)
  | [] => none
  | c :: cs =>
    if c = '\\' then
      match cs with
      | [] => none
      | d :: cs2 =>
        match readQuoted cs2 with
        | none => none
        | some (v, rest) => some ((if d = 'n' then '\n' else d) :: v, rest)
    else if c = '"' then some ([], cs)
    else
      match readQuoted cs with
      | none => none
      | some (v, rest) => some (c :: v, rest)

/-- Drop an expected leading pattern from the input, or fail. -/
def dropLead : List Char → List Char → Option (List Char)
  | [], s => some s
  | _ :: _, [] => none
  | p :: ps, c :: cs => if c = p then dropLead ps cs else none

/-- Expect a `;` followed by a line break (the end of a declaration line). -/
def expectSemiNl : List Char → Option (List Char)
  | c1 :: c2 :: rest => if c1 = ';' ∧ c2 = '\n' then some rest else none
  | _ => none

/-- The decimal digit character for a digit value below ten. -/
def digitCh (d : Nat) : Char := Char.ofNat (48 + d)

/-- The digit value of a decimal digit character. -/
def digitVal (c : Char) : Nat := c.toNat - 48

/-- The decimal digit string of a natural number, most significant first. -/
def natChars (n : Nat) : List Char :=
  if n = 0 then ['0'] else ((Nat.digits 10 n).map digitCh).reverse

/-- Read a maximal run of decimal digit characters, returning their values
most significant first together with the remainder. -/
def readDigits : List Char → List Nat × List Char
  | [] => ([], [])
  | c :: cs =>
    if c.isDigit then
      let p := readDigits cs
      (digitVal c :: p.1, p.2)
    else ([], c :: cs)

/-- Parse a quoted string field: an opening quote, the escaped body, the
closing quote, then `;` and a line break. -/
def readQuotedField : List Char → Option (String × List Char)
  | [] => none
  | c :: cs =>
    if c = '"' then
      match readQuoted cs with
      | none => none
      | some (v, rest) =>
        match expectSemiNl rest with
        | none => none
        | some rest2 => some (String.mk v, rest2)
    else none

/-- Parse a numeric field: a non-empty run of decimal digits, then `;` and
a line break.  The value is read most-significant-digit first. -/
def readNatField (s : List Char) : Option (Nat × List Char) :=
  match readDigits s with
  | (ds, rest) =>
    if ds.isEmpty then none
    else
      match expectSemiNl rest with
      | none => none
      | some rest2 => some (Nat.ofDigits 10 ds.reverse, rest2)

/-- The textual form of a quoted string constant value: `"<escaped>";` and
a line break. -/
def quoted (v : String) : List Char :=
  '"' :: (escapeChars v.data ++ '"' :: ';' :: '\n' :: [])

/-- The textual form of a numeric constant value: its digits, `;` and a
line break. -/
def natField (n : Nat) : List Char :=
  natChars n ++ ';' :: '\n' :: []

/-- Declaration label of the `ssid` constant, as in the headers. -/
def lblSsid : List Char := "const char* ssid = ".data

/-- Declaration label of the `password` constant. -/
def lblPassword : List Char := "const char* password = ".data

/-- Declaration label of the `serverBaseUrl` constant. -/
def lblServerBaseUrl : List Char := "const char* serverBaseUrl = ".data

/-- Declaration label of the `sensorId` constant (string variant). -/
def lblSensorId : List Char := "const char* sensorId = ".data

/-- Declaration label of the `sampleInterval` constant. -/
def lblSampleInterval : List Char := "const unsigned long sampleInterval = ".data

/-- Declaration label of the `connectionTimeout` constant. -/
def lblConnectionTimeout : List Char := "const unsigned long connectionTimeout = ".data

/-- Modelled from the spec: serialize a `DeviceConfig` to its textual
constant form (spec §8, round-trip property) — the sequence of `const`
declaration lines of a `credentials.h` file, in the layout of the string
identifier variant.  No serializer exists in the source; only the constant
file itself does. -/
def serializeConfig (c : DeviceConfig String) : List Char :=
  lblSsid ++ quoted c.networkName ++
  lblPassword ++ quoted c.networkSecret ++
  lblServerBaseUrl ++ quoted c.serverBaseUrl ++
  lblSensorId ++ quoted c.sensorIdentifier ++
  lblSampleInterval ++ natField c.sampleIntervalMs ++
  lblConnectionTimeout ++ natField c.connectionTimeoutMs

/-- Modelled from the spec: re-parse the textual constant form back into a
`DeviceConfig` record (spec §8, round-trip property).  The whole input must
be consumed. -/
def parseConfig (s : List Char) : Option (DeviceConfig String) :=
  (dropLead lblSsid s).bind fun s1 =>
  (readQuotedField s1).bind fun p1 =>
  (dropLead lblPassword p1.2).bind fun s2 =>
  (readQuotedField s2).bind fun p2 =>
  (dropLead lblServerBaseUrl p2.2).bind fun s3 =>
  (readQuotedField s3).bind fun p3 =>
  (dropLead lblSensorId p3.2).bind fun s4 =>
  (readQuotedField s4).bind fun p4 =>
  (dropLead lblSampleInterval p4.2).bind fun s5 =>
  (readNatField s5).bind fun p5 =>
  (dropLead lblConnectionTimeout p5.2).bind fun s6 =>
  (readNatField s6).bind fun p6 =>
  if p6.2 = [] then
    some
      { networkName := p1.1
        networkSecret := p2.1
        serverBaseUrl := p3.1
        sensorIdentifier := p4.1
        sampleIntervalMs := p5.1
        connectionTimeoutMs := p6.1 }
  else none

/-- Modelled from the spec: the fields of the configuration record, as read
by the collaborators of spec §6. -/
inductive Field where
  | networkName
  | networkSecret
  | serverBaseUrl
  | sensorIdentifier
  | sampleIntervalMs
  | connectionTimeoutMs
deriving DecidableEq, Repr

/-- The value returned by reading one field of the record (a string, the
sensor identifier, or a number). -/
def readField {ι : Type} : Field → DeviceConfig ι → String ⊕ ι ⊕ Nat
  | Field.networkName, c => Sum.inl c.networkName
  | Field.networkSecret, c => Sum.inl c.networkSecret
  | Field.serverBaseUrl, c => Sum.inl c.serverBaseUrl
  | Field.sensorIdentifier, c => Sum.inr (Sum.inl c.sensorIdentifier)
  | Field.sampleIntervalMs, c => Sum.inr (Sum.inr c.sampleIntervalMs)
  | Field.connectionTimeoutMs, c => Sum.inr (Sum.inr c.connectionTimeoutMs)

/-- Modelled from the spec: the operations in scope (spec §4–§6) — the
`load` operation and the field reads performed by the WiFi association,
HTTP reporting and sampling collaborators.  The spec exposes no mutating
operation. -/
inductive Op where
  | loadOp
  | readOp (f : Field)
deriving DecidableEq, Repr

/-- Program state in scope: the configuration record baked into the
firmware image (spec §5: produced once, before any concurrent activity). -/
structure ProgState (ι : Type) where
  config : DeviceConfig ι

/-- What an operation observes: the result of `load`, or a field value. -/
inductive Obs (ι : Type) where
  | loaded (r : Except ConfigurationError (DeviceConfig ι))
  | value (v : String ⊕ ι ⊕ Nat)

/-- Modelled from the spec: the effect of one in-scope operation on the
program state, together with its observation.  Reads return values and, per
spec §4.1/§5, no operation writes the record. -/
def applyOp {ι : Type} (present : ι → Bool) :
    Op → ProgState ι → ProgState ι × Obs ι
  | Op.loadOp, s => (s, Obs.loaded (load present s.config))
  | Op.readOp f, s => (s, Obs.value (readField f s.config))

/-- Run a sequence of in-scope operations from a starting state. -/
def runOps {ι : Type} (present : ι → Bool) :
    List Op → ProgState ι → ProgState ι
  | [], s => s
  | op :: ops, s => runOps present ops (applyOp present op s).1

/-- When the sample interval is zero, validation reports some violated
invariant: it never succeeds. -/
theorem validate_ne_none_of_zero_interval {ι : Type} (present : ι → Bool)
    (c : DeviceConfig ι) (h : c.sampleIntervalMs = 0) :
    validate present c ≠ none := by
  intro hcontra
  simp only [validate] at hcontra
  split_ifs at hcontra

/-- C1: for the first source variant, `load()` returns exactly the record
with `networkName="A55"`, `networkSecret="mukava123"`,
`serverBaseUrl="http://192.168.1.11:8000"`, `sensorIdentifier=1`,
`sampleIntervalMs=10000`, `connectionTimeoutMs=15000`, with no error. -/
theorem load_variant1_ok :
    load numericIdPresent Variant1.config =
      Except.ok
        { networkName := "A55"
          networkSecret := "mukava123"
          serverBaseUrl := "http://192.168.1.11:8000"
          sensorIdentifier := (1 : Int)
          sampleIntervalMs := 10000
          connectionTimeoutMs := 15000 } := by
  rfl

/-- C2: the two source variants disagree on the representation of the
sensor identifier: variant 1 declares it `const int` (a numeric ID) and
variant 2 declares it `const char*` (a string label), so the declared C
types differ and the two identifier values, injected into the common sum
type, are unequal (they lie in different summands). -/
theorem sensor_id_representations_disagree :
    Variant1.sensorIdDeclaredType ≠ Variant2.sensorIdDeclaredType ∧
    Variant1.sensorIdValue ≠ Variant2.sensorIdValue ∧
    Variant1.sensorIdDeclaredType = CType.cInt ∧
    Variant2.sensorIdDeclaredType = CType.cCharPtr := by
  refine ⟨by decide, ?_, rfl, rfl⟩
  intro hcontra
  exact Sum.inl_ne_inr hcontra

/-- C3: in both configuration instances present in the source, the sample
interval and the connection timeout are positive. -/
theorem intervals_positive :
    0 < Variant1.config.sampleIntervalMs ∧
    0 < Variant1.config.connectionTimeoutMs ∧
    0 < Variant2.config.sampleIntervalMs ∧
    0 < Variant2.config.connectionTimeoutMs := by
  decide

/-- C4: the `serverBaseUrl` of every configuration instance in the source
parses as a well-formed URI with a non-empty scheme and a non-empty host:
variant 1 has scheme `http` and host `192.168.1.11`, variant 2 has scheme
`http` and host `127.0.0.1`. -/
theorem server_urls_well_formed :
    wellFormedUri Variant1.config.serverBaseUrl = true ∧
    wellFormedUri Variant2.config.serverBaseUrl = true ∧
    uriSchemeHost Variant1.config.serverBaseUrl = some ("http", "192.168.1.11") ∧
    uriSchemeHost Variant2.config.serverBaseUrl = some ("http", "127.0.0.1") := by
  refine ⟨rfl, rfl, rfl, rfl⟩

/-- C5: in both configuration instances present in the source, the network
name (ssid) and the network secret (password) are non-empty strings. -/
theorem credentials_nonempty :
    Variant1.config.networkName ≠ "" ∧
    Variant1.config.networkSecret ≠ "" ∧
    Variant2.config.networkName ≠ "" ∧
    Variant2.config.networkSecret ≠ "" := by
  refine ⟨by decide, by decide, by decide, by decide⟩

/-- C6: if the configuration has a zero sample interval, `load()` signals a
`ConfigurationError` rather than returning a record. -/
theorem load_error_of_zero_interval {ι : Type} (present : ι → Bool)
    (c : DeviceConfig ι) (h : c.sampleIntervalMs = 0) :
    ∃ e, load present c = Except.error e := by
  cases hv : validate present c with
  | none => exact absurd hv (validate_ne_none_of_zero_interval present c h)
  | some e => exact ⟨e, by simp [load, hv]⟩

/-- Witness for C6: variant 1's configuration with the sample interval set
to zero satisfies the hypothesis, and `load` indeed signals an error on it. -/
theorem load_error_of_zero_interval_witness :
    ({ Variant1.config with sampleIntervalMs := 0 } :
        DeviceConfig Int).sampleIntervalMs = 0 ∧
    ∃ e, load numericIdPresent
        ({ Variant1.config with sampleIntervalMs := 0 } : DeviceConfig Int) =
      Except.error e :=
  ⟨rfl, load_error_of_zero_interval numericIdPresent _ rfl⟩

/-- C7: if the configuration (string-identifier variant) has an empty
sensor identifier, `load()` signals a `ConfigurationError` for a missing
identifier. -/
theorem load_missing_identifier (c : DeviceConfig String)
    (h : c.sensorIdentifier = "") :
    load textIdPresent c = Except.error ConfigurationError.missingIdentifier := by
  unfold load validate
  rw [h]
  rfl

/-- Witness for C7: variant 2's configuration with the sensor identifier
set to the empty string satisfies the hypothesis, and `load` reports the
missing identifier on it. -/
theorem load_missing_identifier_witness :
    ({ Variant2.config with sensorIdentifier := "" } :
        DeviceConfig String).sensorIdentifier = "" ∧
    load textIdPresent
        ({ Variant2.config with sensorIdentifier := "" } : DeviceConfig String) =
      Except.error ConfigurationError.missingIdentifier :=
  ⟨rfl, load_missing_identifier _ rfl⟩

/-- C10: for the second source variant, `load()` returns exactly the record
with `networkName="servo"`, `networkSecret="servoapi24"`,
`serverBaseUrl="http://127.0.0.1:8000"`, `sensorIdentifier="ESP32_001"`,
`sampleIntervalMs=5000`, `connectionTimeoutMs=10000`, with no error; and
the two variants differ in every field's value, not only in the type of the
sensor identifier. -/
theorem load_variant2_ok :
    load textIdPresent Variant2.config =
      Except.ok
        { networkName := "servo"
          networkSecret := "servoapi24"
          serverBaseUrl := "http://127.0.0.1:8000"
          sensorIdentifier := "ESP32_001"
          sampleIntervalMs := 5000
          connectionTimeoutMs := 10000 } ∧
    Variant1.config.networkName ≠ Variant2.config.networkName ∧
    Variant1.config.networkSecret ≠ Variant2.config.networkSecret ∧
    Variant1.config.serverBaseUrl ≠ Variant2.config.serverBaseUrl ∧
    Variant1.sensorIdValue ≠ Variant2.sensorIdValue ∧
    Variant1.config.sampleIntervalMs ≠ Variant2.config.sampleIntervalMs ∧
    Variant1.config.connectionTimeoutMs ≠ Variant2.config.connectionTimeoutMs := by
  refine ⟨rfl, by decide, by decide, by decide, ?_, by decide, by decide⟩
  intro hcontra
  exact Sum.inl_ne_inr hcontra


/-- Reading back the digit character of a digit value below ten recovers
the value. -/
theorem digitVal_digitCh : ∀ d < 10, digitVal (digitCh d) = d := by decide

/-- The digit character of a digit value below ten is a decimal digit. -/
theorem digitCh_isDigit : ∀ d < 10, (digitCh d).isDigit = true := by decide

/-- The decimal digit string of a natural number is never empty. -/
theorem natChars_ne_nil (n : Nat) : natChars n ≠ [] := by
  unfold natChars
  split
  · simp
  · simp [Nat.digits_ne_nil_iff_ne_zero, *]

/-- Every character of a decimal digit string is a decimal digit. -/
theorem natChars_all_digits (n : Nat) : ∀ c ∈ natChars n, c.isDigit = true := by
  intro c hc
  unfold natChars at hc
  split at hc
  · simp at hc
    subst hc
    decide
  · simp only [List.mem_reverse, List.mem_map] at hc
    obtain ⟨d, hd, rfl⟩ := hc
    exact digitCh_isDigit d (Nat.digits_lt_base (by norm_num) hd)

/-- Reading the decimal digit string of a natural number back as a number
recovers it. -/
theorem natChars_val (n : Nat) :
    Nat.ofDigits 10 ((natChars n).map digitVal).reverse = n := by
  by_cases h : n = 0
  · subst h
    decide
  · unfold natChars
    rw [if_neg h, List.map_reverse, List.reverse_reverse, List.map_map]
    have hcongr : (Nat.digits 10 n).map (digitVal ∘ digitCh) = (Nat.digits 10 n).map id := by
      apply List.map_congr_left
      intro d hd
      exact digitVal_digitCh d (Nat.digits_lt_base (by norm_num) hd)
    rw [hcongr, List.map_id]
    exact Nat.ofDigits_digits 10 n

/-- Reading digits from a digit run followed by a semicolon consumes
exactly the run. -/
theorem readDigits_append (ds : List Char) (tail : List Char)
    (h : ∀ c ∈ ds, c.isDigit = true) :
    readDigits (ds ++ ';' :: tail) = (ds.map digitVal, ';' :: tail) := by
  induction ds with
  | nil => simp [readDigits]
  | cons c cs ih =>
    have hc : c.isDigit = true := h c (List.mem_cons_self c cs)
    simp [readDigits, hc, ih fun d hd => h d (List.mem_cons_of_mem c hd)]


/-- Dropping an expected pattern from input that starts with it succeeds
and returns the remainder. -/
theorem dropLead_append (p s : List Char) : dropLead p (p ++ s) = some s := by
  induction p with
  | nil => rfl
  | cons c cs ih => simp [dropLead, ih]

/-- Expecting a semicolon and line break succeeds on input starting with
them. -/
theorem expectSemiNl_cons (rest : List Char) :
    expectSemiNl (';' :: '\n' :: rest) = some rest := by
  simp [expectSemiNl]

/-- Reading a quoted body undoes the escaping: the decoder is a left
inverse of `escapeChars` up to the closing quote. -/
theorem readQuoted_escape (v rest : List Char) :
    readQuoted (escapeChars v ++ '"' :: rest) = some (v, rest) := by
  induction v with
  | nil =>
    show readQuoted ('"' :: rest) = some ([], rest)
    rw [readQuoted.eq_def]
    simp
  | cons c cs ih =>
    by_cases h1 : c = '\\' ∨ c = '"'
    · rcases h1 with h1 | h1 <;> subst h1 <;>
        simp [escapeChars, readQuoted, ih]
    · push_neg at h1
      by_cases h2 : c = '\n'
      · subst h2
        simp [escapeChars, readQuoted, ih]
      · have he : escapeChars (c :: cs) = c :: escapeChars cs := by
          simp [escapeChars, h1.1, h1.2, h2]
        rw [he, List.cons_append, readQuoted.eq_def]
        simp [h1.1, h1.2, ih]

/-- Parsing a quoted string field from its serialized form recovers the
original string and the remainder. -/
theorem readQuotedField_quoted (v : String) (rest : List Char) :
    readQuotedField (quoted v ++ rest) = some (v, rest) := by
  unfold quoted readQuotedField
  simp only [List.cons_append, List.append_assoc, List.nil_append, if_true]
  rw [readQuoted_escape]
  simp [expectSemiNl_cons]

/-- Parsing a numeric field from its serialized form recovers the original
number and the remainder. -/
theorem readNatField_natField (n : Nat) (rest : List Char) :
    readNatField (natField n ++ rest) = some (n, rest) := by
  unfold natField readNatField
  simp only [List.append_assoc, List.cons_append, List.nil_append]
  rw [readDigits_append (natChars n) ('\n' :: rest) (natChars_all_digits n)]
  simp only []
  rw [if_neg (by simp [natChars_ne_nil n]), expectSemiNl_cons, natChars_val]


/-- C8: serializing a `DeviceConfig` to its textual constant form and
re-parsing it yields a record identical to the original, for every
`DeviceConfig` (round-trip identity of the load operation). -/
theorem parse_serialize (c : DeviceConfig String) :
    parseConfig (serializeConfig c) = some c := by
  unfold serializeConfig parseConfig
  simp only [List.append_assoc]
  rw [dropLead_append, Option.some_bind, readQuotedField_quoted, Option.some_bind]
  rw [dropLead_append, Option.some_bind, readQuotedField_quoted, Option.some_bind]
  rw [dropLead_append, Option.some_bind, readQuotedField_quoted, Option.some_bind]
  rw [dropLead_append, Option.some_bind, readQuotedField_quoted, Option.some_bind]
  rw [dropLead_append, Option.some_bind, readNatField_natField, Option.some_bind]
  rw [dropLead_append, Option.some_bind]
  rw [← List.append_nil (natField c.connectionTimeoutMs), readNatField_natField,
    Option.some_bind]
  simp


/-- Running any sequence of in-scope operations never changes the
configuration record of the program state. -/
theorem runOps_config_eq {ι : Type} (present : ι → Bool) (ops : List Op)
    (s : ProgState ι) : (runOps present ops s).config = s.config := by
  induction ops generalizing s with
  | nil => rfl
  | cons op ops ih => cases op <;> exact ih _

/-- C9: all fields of the configuration record are set once at
construction and never mutated: no in-scope operation changes any field, so
after any sequence of operations every field reads the same value as at the
start of the program. -/
theorem config_never_mutated {ι : Type} (present : ι → Bool) (ops : List Op)
    (s : ProgState ι) (f : Field) :
    (runOps present ops s).config = s.config ∧
    readField f (runOps present ops s).config = readField f s.config := by
  refine ⟨runOps_config_eq present ops s, ?_⟩
  rw [runOps_config_eq present ops s]

end PdM
